import Mathlib

/-!
# HRS payroll engine: shallow embedding and verification

This file embeds the payroll calculation and period-processing core of the
HRS repository (`backend/payroll/services/calculator.py`,
`backend/payroll/services/processor.py`, `backend/payroll/models.py`) into
Lean 4 and proves or refutes the specification claims about it.

Python `Decimal` values are modelled as rationals (`ℚ`); `Decimal.quantize`
with `ROUND_HALF_UP` (round to two decimal places, ties away from zero) is
modelled by `roundHalfUp2`.  Django querysets are modelled as lists of rows;
raised exceptions are modelled with `Except PyError`.
-/

namespace HRS

/-- Python exceptions that the payroll core can raise. -/
inductive PyError where
  | nameError (missing : String)
  | valueError (msg : String)
  deriving DecidableEq

/-- `Decimal.quantize(Decimal('0.01'), rounding=ROUND_HALF_UP)`: round to two
decimal places, ties away from zero (calculator.py, `PayrollCalculator._round`). -/
def roundHalfUp2 (q : ℚ) : ℚ :=
  if 0 ≤ q then (⌊q * 100 + 1 / 2⌋ : ℚ) / 100
  else -((⌊-q * 100 + 1 / 2⌋ : ℚ) / 100)

/-- The calculator configuration: the keys of
`PayrollCalculator.DEFAULT_CONFIG` (calculator.py lines 72-105). -/
structure Config where
  band_1_limit : ℚ
  band_1_rate : ℚ
  band_2_limit : ℚ
  band_2_rate : ℚ
  band_3_limit : ℚ
  band_3_rate : ℚ
  band_4_limit : ℚ
  band_4_rate : ℚ
  band_5_rate : ℚ
  personal_relief : ℚ
  insurance_relief_rate : ℚ
  insurance_relief_max : ℚ
  disability_exemption : ℚ
  nssf_tier1_limit : ℚ
  nssf_tier1_rate : ℚ
  nssf_tier2_limit : ℚ
  nssf_tier2_rate : ℚ
  sha_rate : ℚ
  housing_levy_rate : ℚ
  pension_max_deduction : ℚ
  mortgage_interest_max : ℚ
  deriving DecidableEq

/-- `PayrollCalculator.DEFAULT_CONFIG`: 2024/2025 Kenya statutory values
(calculator.py lines 72-105). -/
def DEFAULT_CONFIG : Config where
  band_1_limit := 24000
  band_1_rate := 0.10
  band_2_limit := 32333
  band_2_rate := 0.25
  band_3_limit := 500000
  band_3_rate := 0.30
  band_4_limit := 800000
  band_4_rate := 0.325
  band_5_rate := 0.35
  personal_relief := 2400
  insurance_relief_rate := 0.15
  insurance_relief_max := 5000
  disability_exemption := 150000
  nssf_tier1_limit := 7000
  nssf_tier1_rate := 0.06
  nssf_tier2_limit := 36000
  nssf_tier2_rate := 0.06
  sha_rate := 0.0275
  housing_levy_rate := 0.015
  pension_max_deduction := 20000
  mortgage_interest_max := 25000

/-- One allowance as passed to the calculator:
`{'amount': x, 'taxable': bool}` (calculator.py lines 273, 291-303). -/
structure AllowanceItem where
  name : String
  amount : ℚ
  taxable : Bool
  deriving DecidableEq

/-- One deduction as passed to the calculator:
`{'amount': x, 'type': str}` (calculator.py lines 274, 354-368). -/
structure DeductionItem where
  name : String
  amount : ℚ
  dtype : String
  deriving DecidableEq

/-- `calculate_nssf` (calculator.py lines 120-153): two-tier contribution,
each tier rounded before summing. -/
def calculate_nssf (cfg : Config) (gross_pay : ℚ) : ℚ :=
  let tier1_pensionable := min gross_pay cfg.nssf_tier1_limit
  let tier1_contribution := roundHalfUp2 (tier1_pensionable * cfg.nssf_tier1_rate)
  let tier2_contribution :=
    if gross_pay > cfg.nssf_tier1_limit then
      roundHalfUp2 ((min gross_pay cfg.nssf_tier2_limit - cfg.nssf_tier1_limit)
        * cfg.nssf_tier2_rate)
    else 0
  tier1_contribution + tier2_contribution

/-- `calculate_sha` (calculator.py lines 155-169). -/
def calculate_sha (cfg : Config) (gross_pay : ℚ) : ℚ :=
  roundHalfUp2 (gross_pay * cfg.sha_rate)

/-- `calculate_housing_levy` (calculator.py lines 171-185). -/
def calculate_housing_levy (cfg : Config) (gross_pay : ℚ) : ℚ :=
  roundHalfUp2 (gross_pay * cfg.housing_levy_rate)

/-- The band list built in `calculate_tax` (calculator.py lines 210-216):
four bounded bands and a final unbounded one. -/
def taxBands (cfg : Config) : List (Option ℚ × ℚ) :=
  [(some cfg.band_1_limit, cfg.band_1_rate),
   (some cfg.band_2_limit, cfg.band_2_rate),
   (some cfg.band_3_limit, cfg.band_3_rate),
   (some cfg.band_4_limit, cfg.band_4_rate),
   (none, cfg.band_5_rate)]

/-- The band loop of `calculate_tax` (calculator.py lines 218-237): state is
`(remaining, tax, previous_limit)`; each band consumes
`min(remaining, limit - previous_limit)` (all of it for the unbounded band),
rounds that band tax, and the loop breaks once `remaining ≤ 0`. -/
def taxLoop : List (Option ℚ × ℚ) → ℚ → ℚ → ℚ → ℚ
  | [], _, tax, _ => tax
  | (limit, rate) :: rest, remaining, tax, previous_limit =>
    if remaining ≤ 0 then tax
    else
      let band_income :=
        match limit with
        | none => remaining
        | some l => min remaining (l - previous_limit)
      let tax := tax + roundHalfUp2 (band_income * rate)
      let previous_limit :=
        match limit with
        | none => previous_limit
        | some l => l
      taxLoop rest (remaining - band_income) tax previous_limit

/-- `calculate_tax` (calculator.py lines 187-240). -/
def calculate_tax (cfg : Config) (taxable_income : ℚ) : ℚ :=
  if taxable_income ≤ 0 then 0
  else taxLoop (taxBands cfg) taxable_income 0 0

/-- `calculate_insurance_relief` (calculator.py lines 242-256). -/
def calculate_insurance_relief (cfg : Config) (insurance_premium : ℚ) : ℚ :=
  min (roundHalfUp2 (insurance_premium * cfg.insurance_relief_rate))
    cfg.insurance_relief_max

/-- Step 1 of `calculate` (calculator.py lines 287-298): accumulate taxable
allowance amounts. -/
def sumTaxableAllowances (allowances : List AllowanceItem) : ℚ :=
  allowances.foldl (fun acc a => if a.taxable then acc + a.amount else acc) 0

/-- Step 1 of `calculate` (calculator.py lines 287-298): accumulate
non-taxable allowance amounts. -/
def sumNonTaxableAllowances (allowances : List AllowanceItem) : ℚ :=
  allowances.foldl (fun acc a => if a.taxable then acc else acc + a.amount) 0

/-- Step 2 of `calculate` (calculator.py line 306). -/
def grossPay (basic_salary : ℚ) (allowances : List AllowanceItem) : ℚ :=
  basic_salary + sumTaxableAllowances allowances + sumNonTaxableAllowances allowances

/-- Steps 3-6 of `calculate` (calculator.py lines 310-323): taxable income
after NSSF, capped pension and capped mortgage interest, floored at zero. -/
def taxableIncome (cfg : Config) (basic_salary : ℚ) (allowances : List AllowanceItem)
    (pension_contribution mortgage_interest : ℚ) : ℚ :=
  let gross_pay := grossPay basic_salary allowances
  let nssf := calculate_nssf cfg gross_pay
  let pension_deductible := min pension_contribution cfg.pension_max_deduction
  let owner_occupied_interest := min mortgage_interest cfg.mortgage_interest_max
  max (gross_pay - nssf - pension_deductible - owner_occupied_interest) 0

/-- Step 8 of `calculate` (calculator.py lines 330-339): total relief. -/
def totalRelief (cfg : Config) (insurance_premium : ℚ) (has_disability : Bool) : ℚ :=
  cfg.personal_relief + calculate_insurance_relief cfg insurance_premium
    + (if has_disability then cfg.disability_exemption else 0)

/-- Step 9 of `calculate` (calculator.py lines 340-341):
`paye = round(max(tax_charged - total_relief, 0))`. -/
def payeOf (cfg : Config) (basic_salary : ℚ) (allowances : List AllowanceItem)
    (pension_contribution mortgage_interest insurance_premium : ℚ)
    (has_disability : Bool) : ℚ :=
  roundHalfUp2 (max (calculate_tax cfg
      (taxableIncome cfg basic_salary allowances pension_contribution mortgage_interest)
    - totalRelief cfg insurance_premium has_disability) 0)

/-- Step 11 of `calculate` (calculator.py lines 349-368): sum of deductions
tagged `loan`. -/
def loanDeductions (deductions : List DeductionItem) : ℚ :=
  deductions.foldl (fun acc d => if d.dtype = "loan" then acc + d.amount else acc) 0

/-- Step 11 of `calculate` (calculator.py lines 349-368): sum of deductions
tagged `sacco`. -/
def saccoDeductions (deductions : List DeductionItem) : ℚ :=
  deductions.foldl (fun acc d => if d.dtype = "sacco" then acc + d.amount else acc) 0

/-- Step 11 of `calculate` (calculator.py lines 349-368): every deduction
whose tag is neither `loan` nor `sacco` falls into the `other` bucket. -/
def otherDeductions (deductions : List DeductionItem) : ℚ :=
  deductions.foldl
    (fun acc d => if d.dtype = "loan" then acc else if d.dtype = "sacco" then acc else acc + d.amount) 0

/-- `PayrollResult` (calculator.py lines 14-52), without the two JSON
breakdown dicts, which no claim concerns. -/
structure PayrollResult where
  basic_salary : ℚ
  taxable_allowances : ℚ
  non_taxable_allowances : ℚ
  gross_pay : ℚ
  pension_contribution : ℚ
  pension_deductible : ℚ
  owner_occupied_interest : ℚ
  taxable_income : ℚ
  tax_charged : ℚ
  personal_relief : ℚ
  insurance_relief : ℚ
  disability_exemption : ℚ
  paye : ℚ
  nssf : ℚ
  sha : ℚ
  housing_levy : ℚ
  loan_deductions : ℚ
  sacco_deductions : ℚ
  other_deductions : ℚ
  total_deductions : ℚ
  net_pay : ℚ
  deriving DecidableEq

/-- `PayrollCalculator.calculate` (calculator.py lines 258-410), assembled
from the step functions above exactly as the source assembles its locals. -/
def calculate (cfg : Config) (basic_salary : ℚ) (allowances : List AllowanceItem)
    (deductions : List DeductionItem) (pension_contribution : ℚ)
    (mortgage_interest : ℚ) (insurance_premium : ℚ)
    (has_disability : Bool) : PayrollResult :=
  let taxable_allowances := sumTaxableAllowances allowances
  let non_taxable_allowances := sumNonTaxableAllowances allowances
  let gross_pay := basic_salary + taxable_allowances + non_taxable_allowances
  let nssf := calculate_nssf cfg gross_pay
  let pension_deductible := min pension_contribution cfg.pension_max_deduction
  let owner_occupied_interest := min mortgage_interest cfg.mortgage_interest_max
  let taxable_income :=
    max (gross_pay - nssf - pension_deductible - owner_occupied_interest) 0
  let tax_charged := calculate_tax cfg taxable_income
  let personal_relief := cfg.personal_relief
  let insurance_relief := calculate_insurance_relief cfg insurance_premium
  let disability_exemption := if has_disability then cfg.disability_exemption else 0
  let total_relief := personal_relief + insurance_relief + disability_exemption
  let paye := roundHalfUp2 (max (tax_charged - total_relief) 0)
  let sha := calculate_sha cfg gross_pay
  let housing_levy := calculate_housing_levy cfg gross_pay
  let loan_deductions := loanDeductions deductions
  let sacco_deductions := saccoDeductions deductions
  let other_deductions_total := otherDeductions deductions
  let total_deductions := paye + nssf + sha + housing_levy
    + loan_deductions + sacco_deductions + other_deductions_total
  let net_pay := roundHalfUp2 (gross_pay - total_deductions)
  { basic_salary := roundHalfUp2 basic_salary
    taxable_allowances := roundHalfUp2 taxable_allowances
    non_taxable_allowances := roundHalfUp2 non_taxable_allowances
    gross_pay := roundHalfUp2 gross_pay
    pension_contribution := roundHalfUp2 pension_contribution
    pension_deductible := roundHalfUp2 pension_deductible
    owner_occupied_interest := roundHalfUp2 owner_occupied_interest
    taxable_income := roundHalfUp2 taxable_income
    tax_charged := roundHalfUp2 tax_charged
    personal_relief := roundHalfUp2 personal_relief
    insurance_relief := roundHalfUp2 insurance_relief
    disability_exemption := roundHalfUp2 disability_exemption
    paye := paye
    nssf := nssf
    sha := sha
    housing_levy := housing_levy
    loan_deductions := roundHalfUp2 loan_deductions
    sacco_deductions := roundHalfUp2 sacco_deductions
    other_deductions := roundHalfUp2 other_deductions_total
    total_deductions := roundHalfUp2 total_deductions
    net_pay := net_pay }

/-! ## Processor data model (employees/models.py, payroll/models.py) -/

/-- `employees.models.User`, restricted to the fields the processor reads
(id, `basic_salary`, `has_disability`; `get_full_name()` as `full_name`). -/
structure Employee where
  id : ℕ
  full_name : String
  basic_salary : ℚ
  has_disability : Bool
  deriving DecidableEq

/-- One `EmployeeAllowance` row for one employee (employees/models.py lines
197-236); `name` stands for `allowance.name or
allowance.get_allowance_type_display()` as resolved in processor.py line 92. -/
structure AllowanceRow where
  name : String
  amount : ℚ
  is_taxable : Bool
  effective_from : ℤ
  effective_to : Option ℤ
  deriving DecidableEq

/-- One `EmployeeDeduction` row for one employee (employees/models.py lines
243-283). -/
structure DeductionRow where
  name : String
  amount : ℚ
  deduction_type : String
  is_pretax : Bool
  effective_from : ℤ
  effective_to : Option ℤ
  deriving DecidableEq

/-- The validity-window filter used by every compensation query
(`effective_from <= period_date` and (`effective_to` null or
`effective_to >= period_date`)). -/
def AllowanceRow.validOn (r : AllowanceRow) (d : ℤ) : Bool :=
  decide (r.effective_from ≤ d) &&
    (match r.effective_to with
     | none => true
     | some e => decide (d ≤ e))

/-- The validity-window filter for deduction rows (same shape as for
allowance rows). -/
def DeductionRow.validOn (r : DeductionRow) (d : ℤ) : Bool :=
  decide (r.effective_from ≤ d) &&
    (match r.effective_to with
     | none => true
     | some e => decide (d ≤ e))

/-- The per-employee compensation tables, keyed by employee id (the
`EmployeeAllowance`/`EmployeeDeduction` querysets restricted to one
employee, in database order). -/
structure EmployeeDb where
  allowance_rows : ℕ → List AllowanceRow
  deduction_rows : ℕ → List DeductionRow

/-- `payroll.models.TaxTable` (models.py lines 220-376): validity metadata
plus the 21 statutory rate fields, grouped here as a `Config` since
`PayrollProcessor._get_calculator` copies them field-for-field into the
calculator configuration (processor.py lines 38-60). -/
structure TaxTable where
  effective_from : ℤ
  effective_to : Option ℤ
  is_active : Bool
  config : Config
  deriving DecidableEq

/-- The queryset filter of `TaxTable.get_active` (models.py lines 371-376):
`is_active`, `effective_from <= date`, and open or covering `effective_to`. -/
def TaxTable.matches (t : TaxTable) (d : ℤ) : Bool :=
  t.is_active && decide (t.effective_from ≤ d) &&
    (match t.effective_to with
     | none => true
     | some e => decide (d ≤ e))

/-- `TaxTable.get_active` (models.py lines 364-376): the matching rows are
returned in the model Meta ordering `['-effective_from']` and `.first()` is
taken, i.e. the matching table with the greatest `effective_from` (the first
such row in database order on ties). -/
def TaxTable.get_active (tables : List TaxTable) (d : ℤ) : Option TaxTable :=
  (tables.filter (fun t => t.matches d)).foldl
    (fun acc t =>
      match acc with
      | none => some t
      | some b => if b.effective_from < t.effective_from then some t else acc)
    none

/-- `PayrollProcessor._get_calculator` (processor.py lines 33-63): use the
active tax table if there is one, otherwise fall back to the calculator
default configuration.  The source calls `TaxTable.get_active()` with no
argument, so the lookup date is the current date `today`, not the period
date. -/
def getCalculatorConfig (tables : List TaxTable) (today : ℤ) : Config :=
  match TaxTable.get_active tables today with
  | some t => t.config
  | none => DEFAULT_CONFIG

/-- `PayrollPeriod.Status` (models.py lines 18-24). -/
inductive Status where
  | draft
  | pending_hr
  | pending_mgmt
  | approved
  | paid
  | cancelled
  deriving DecidableEq

/-- `payroll.models.PayrollEntry`: exactly the fields written by
`update_or_create` in `process_employee` (processor.py lines 190-217),
without the two JSON breakdown dicts.  Note `pension_deductible` of
`PayrollResult` is not among them. -/
structure PayrollEntry where
  basic_salary : ℚ
  taxable_allowances : ℚ
  non_taxable_allowances : ℚ
  gross_pay : ℚ
  pension_contribution : ℚ
  owner_occupied_interest : ℚ
  taxable_income : ℚ
  tax_charged : ℚ
  personal_relief : ℚ
  insurance_relief : ℚ
  disability_exemption : ℚ
  paye : ℚ
  nssf : ℚ
  sha : ℚ
  housing_levy : ℚ
  loan_deductions : ℚ
  sacco_deductions : ℚ
  other_deductions : ℚ
  total_deductions : ℚ
  net_pay : ℚ
  deriving DecidableEq

/-- The `defaults=` assignment of `update_or_create` (processor.py lines
193-216): which `PayrollResult` fields are persisted on the entry. -/
def PayrollEntry.ofResult (r : PayrollResult) : PayrollEntry where
  basic_salary := r.basic_salary
  taxable_allowances := r.taxable_allowances
  non_taxable_allowances := r.non_taxable_allowances
  gross_pay := r.gross_pay
  pension_contribution := r.pension_contribution
  owner_occupied_interest := r.owner_occupied_interest
  taxable_income := r.taxable_income
  tax_charged := r.tax_charged
  personal_relief := r.personal_relief
  insurance_relief := r.insurance_relief
  disability_exemption := r.disability_exemption
  paye := r.paye
  nssf := r.nssf
  sha := r.sha
  housing_levy := r.housing_levy
  loan_deductions := r.loan_deductions
  sacco_deductions := r.sacco_deductions
  other_deductions := r.other_deductions
  total_deductions := r.total_deductions
  net_pay := r.net_pay

/-- `payroll.models.PayrollPeriod` (models.py lines 12-101): workflow state,
approval stamps, the entry set (keyed by employee id, mirroring the
`unique_together = ['payroll_period', 'employee']` constraint of
`PayrollEntry.Meta`), and the six stored totals. -/
structure PayrollPeriod where
  year : ℕ
  month : ℕ
  status : Status
  prepared_by : Option String
  prepared_at : Option ℕ
  hr_approved_by : Option String
  hr_approved_at : Option ℕ
  hr_comments : String
  mgmt_approved_by : Option String
  mgmt_approved_at : Option ℕ
  mgmt_comments : String
  entries : List (ℕ × PayrollEntry)
  total_gross : ℚ
  total_net : ℚ
  total_paye : ℚ
  total_nssf : ℚ
  total_sha : ℚ
  total_housing_levy : ℚ
  deriving DecidableEq

/-- `PayrollPeriod.calculate_totals` (models.py lines 92-101): recompute the
six stored totals as the field-wise sums over the current entries. -/
def calculate_totals (p : PayrollPeriod) : PayrollPeriod :=
  { p with
    total_gross := (p.entries.map (fun e => e.2.gross_pay)).sum
    total_net := (p.entries.map (fun e => e.2.net_pay)).sum
    total_paye := (p.entries.map (fun e => e.2.paye)).sum
    total_nssf := (p.entries.map (fun e => e.2.nssf)).sum
    total_sha := (p.entries.map (fun e => e.2.sha)).sum
    total_housing_levy := (p.entries.map (fun e => e.2.housing_levy)).sum }

/-- `PayrollEntry.objects.update_or_create(payroll_period=..., employee=...)`
(processor.py lines 190-217) on the entry set of one period: replace the
entry of this employee if present, otherwise append a new one. -/
def update_or_create (entries : List (ℕ × PayrollEntry)) (empId : ℕ)
    (e : PayrollEntry) : List (ℕ × PayrollEntry) :=
  if entries.any (fun q => q.1 = empId) then
    entries.map (fun q => if q.1 = empId then (empId, e) else q)
  else entries ++ [(empId, e)]

/-! ## Processor operations (processor.py) -/

/-- `PayrollProcessor.get_employee_allowances` (processor.py lines 72-98).
The query at lines 83-88 is built as
`EmployeeAllowance.objects.filter(...).filter(models.Q(effective_to__isnull=True) | models.Q(effective_to__gte=period_date))`,
but the name `models` is bound neither at module level (processor.py lines
5-13) nor inside this function (unlike `get_employee_deductions`,
`get_pension_contribution` and `get_insurance_premium`, which each do
`from django.db import models` locally).  CPython therefore raises
`NameError` for the name `models` as soon as the function runs, before any
row is read, for every employee. -/
def get_employee_allowances (_emp : Employee) (_period_date : ℤ) :
    Except PyError (List AllowanceItem) :=
  Except.error (PyError.nameError "models")

/-- The row selection and dict that `get_employee_allowances` builds after
its `models.Q` filter, had `models` been in scope (processor.py lines
83-98): every allowance row valid on the period date.  This is the intended
success path; it is used to analyse processing downstream of the `NameError`
documented on `get_employee_allowances`. -/
def allowanceItemsOn (rows : List AllowanceRow) (d : ℤ) : List AllowanceItem :=
  (rows.filter (fun r => r.validOn d)).map
    (fun r => { name := r.name, amount := r.amount, taxable := r.is_taxable })

/-- `PayrollProcessor.get_employee_deductions` (processor.py lines 100-127):
every deduction row valid on the period date, of every `deduction_type`,
becomes a calculator deduction item `{'amount': ..., 'type': ...}`. -/
def get_employee_deductions (rows : List DeductionRow) (d : ℤ) : List DeductionItem :=
  (rows.filter (fun r => r.validOn d)).map
    (fun r => { name := r.name, amount := r.amount, dtype := r.deduction_type })

/-- `PayrollProcessor.get_pension_contribution` (processor.py lines
129-142): the amount of the first valid pretax pension row, else 0. -/
def get_pension_contribution (rows : List DeductionRow) (d : ℤ) : ℚ :=
  match (rows.filter (fun r =>
      r.deduction_type = "pension" && r.is_pretax && r.validOn d)).head? with
  | some r => r.amount
  | none => 0

/-- `PayrollProcessor.get_insurance_premium` (processor.py lines 144-156):
the amount of the first valid insurance row, else 0. -/
def get_insurance_premium (rows : List DeductionRow) (d : ℤ) : ℚ :=
  match (rows.filter (fun r =>
      r.deduction_type = "insurance" && r.validOn d)).head? with
  | some r => r.amount
  | none => 0

/-- `PayrollProcessor.process_employee` (processor.py lines 158-222),
faithful: the allowance lookup raises `NameError`, so the whole body does.
The calculator call at lines 180-187 passes no `mortgage_interest`, so
`calculate` would run with its default of 0. -/
def process_employee (cfg : Config) (db : EmployeeDb) (period_date : ℤ)
    (p : PayrollPeriod) (emp : Employee) : Except PyError PayrollPeriod := do
  let allowances ← get_employee_allowances emp period_date
  let deductions := get_employee_deductions (db.deduction_rows emp.id) period_date
  let pension := get_pension_contribution (db.deduction_rows emp.id) period_date
  let insurance := get_insurance_premium (db.deduction_rows emp.id) period_date
  let result := calculate cfg emp.basic_salary allowances deductions pension 0
    insurance emp.has_disability
  Except.ok
    { p with entries := update_or_create p.entries emp.id (PayrollEntry.ofResult result) }

/-- The success path of `process_employee` (processor.py lines 171-217) with
the allowance dict assembled as `allowanceItemsOn` (see
`get_employee_allowances` for the `NameError` on the faithful path): fetch
the four compensation inputs, call `calculate` with the default
`mortgage_interest = 0`, and upsert the entry keyed by employee. -/
def process_employee_core (cfg : Config) (db : EmployeeDb) (period_date : ℤ)
    (p : PayrollPeriod) (emp : Employee) : PayrollPeriod :=
  let allowances := allowanceItemsOn (db.allowance_rows emp.id) period_date
  let deductions := get_employee_deductions (db.deduction_rows emp.id) period_date
  let pension := get_pension_contribution (db.deduction_rows emp.id) period_date
  let insurance := get_insurance_premium (db.deduction_rows emp.id) period_date
  let result := calculate cfg emp.basic_salary allowances deductions pension 0
    insurance emp.has_disability
  { p with entries := update_or_create p.entries emp.id (PayrollEntry.ofResult result) }

/-- The per-employee `PayrollResult` computed on the success path of
`process_employee` (processor.py lines 180-187). -/
def employeeResult (cfg : Config) (db : EmployeeDb) (period_date : ℤ)
    (emp : Employee) : PayrollResult :=
  calculate cfg emp.basic_salary
    (allowanceItemsOn (db.allowance_rows emp.id) period_date)
    (get_employee_deductions (db.deduction_rows emp.id) period_date)
    (get_pension_contribution (db.deduction_rows emp.id) period_date)
    0
    (get_insurance_premium (db.deduction_rows emp.id) period_date)
    emp.has_disability

/-- The closing step of `process_all` (processor.py lines 245-257): stamp
`prepared_by`/`prepared_at`, set status `PENDING_HR`, and recompute the
totals.  The source performs no check of the current status first. -/
def finishProcessing (prepared_by : String) (now : ℕ) (p : PayrollPeriod) :
    PayrollPeriod :=
  calculate_totals
    { p with
      prepared_by := some prepared_by
      prepared_at := some now
      status := Status.pending_hr }

/-- `PayrollProcessor.process_all` (processor.py lines 224-257), faithful:
process every active employee in turn (any exception aborts and is
re-raised, rolling back the transaction), then stamp, advance to
`PENDING_HR` and recompute totals. -/
def process_all (cfg : Config) (workforce : List Employee) (db : EmployeeDb)
    (period_date : ℤ) (prepared_by : String) (now : ℕ) (p : PayrollPeriod) :
    Except PyError PayrollPeriod := do
  let p1 ← workforce.foldlM (fun q emp => process_employee cfg db period_date q emp) p
  Except.ok (finishProcessing prepared_by now p1)

/-- The success path of `process_all` (processor.py lines 224-257), built on
`process_employee_core`. -/
def process_all_core (cfg : Config) (workforce : List Employee) (db : EmployeeDb)
    (period_date : ℤ) (prepared_by : String) (now : ℕ) (p : PayrollPeriod) :
    PayrollPeriod :=
  finishProcessing prepared_by now
    (workforce.foldl (fun q emp => process_employee_core cfg db period_date q emp) p)

/-- `PayrollProcessor.approve_hr` (processor.py lines 259-272): raises
`ValueError` (mutating nothing) unless the status is `PENDING_HR`. -/
def approve_hr (p : PayrollPeriod) (approved_by : String) (comments : String)
    (now : ℕ) : Except PyError PayrollPeriod :=
  if p.status ≠ Status.pending_hr then
    Except.error (PyError.valueError "Payroll is not pending HR approval")
  else
    Except.ok { p with
      hr_approved_by := some approved_by
      hr_approved_at := some now
      hr_comments := comments
      status := Status.pending_mgmt }

/-- `PayrollProcessor.approve_management` (processor.py lines 274-287):
raises `ValueError` (mutating nothing) unless the status is
`PENDING_MANAGEMENT`. -/
def approve_management (p : PayrollPeriod) (approved_by : String)
    (comments : String) (now : ℕ) : Except PyError PayrollPeriod :=
  if p.status ≠ Status.pending_mgmt then
    Except.error (PyError.valueError "Payroll is not pending management approval")
  else
    Except.ok { p with
      mgmt_approved_by := some approved_by
      mgmt_approved_at := some now
      mgmt_comments := comments
      status := Status.approved }

/-- `PayrollProcessor.reject` (processor.py lines 289-307): no status
precondition at all; always returns the period to `DRAFT`, clears both
approval stamps, and appends a rejection note to `hr_comments`. -/
def reject (p : PayrollPeriod) (rejected_by : String) (comments : String) :
    Except PyError PayrollPeriod :=
  let note := "Rejected by " ++ rejected_by ++ ": " ++ comments
  Except.ok { p with
    status := Status.draft
    hr_approved_by := none
    hr_approved_at := none
    mgmt_approved_by := none
    mgmt_approved_at := none
    hr_comments := if p.hr_comments ≠ "" then p.hr_comments ++ "\n\n" ++ note else note }

/-! ## Helper lemmas on rounding -/

theorem roundHalfUp2_zero : roundHalfUp2 0 = 0 := by
  norm_num [roundHalfUp2]

theorem roundHalfUp2_nonneg {q : ℚ} (h : 0 ≤ q) : 0 ≤ roundHalfUp2 q := by
  rw [roundHalfUp2, if_pos h]
  have hfl : (0 : ℤ) ≤ ⌊q * 100 + 1 / 2⌋ := by
    apply Int.floor_nonneg.mpr
    positivity
  positivity

/-! ## Claims -/

/-- **C5.** For every gross pay, the social-security contribution equals
`round(rate1 * min(gross, limit1))` plus, when `gross > limit1`,
`round(rate2 * (min(gross, limit2) - limit1))`, each tier rounded to two
decimals half-up before summing; for every gross ≤ the tier-1 limit the
contribution is exactly `round(rate1 * gross)`, and for every gross ≥ the
tier-2 limit the contribution equals the fixed value taken at the tier-2
limit, unchanged as gross increases further (the last two parts under the
configuration sanity hypothesis `tier1_limit ≤ tier2_limit`, which the
default configuration satisfies). -/
theorem nssf_two_tier (cfg : Config)
    (h12 : cfg.nssf_tier1_limit ≤ cfg.nssf_tier2_limit) (gross : ℚ) :
    calculate_nssf cfg gross
      = roundHalfUp2 (cfg.nssf_tier1_rate * min gross cfg.nssf_tier1_limit)
        + (if cfg.nssf_tier1_limit < gross then
             roundHalfUp2 (cfg.nssf_tier2_rate
               * (min gross cfg.nssf_tier2_limit - cfg.nssf_tier1_limit))
           else 0)
    ∧ (gross ≤ cfg.nssf_tier1_limit →
        calculate_nssf cfg gross = roundHalfUp2 (cfg.nssf_tier1_rate * gross))
    ∧ (cfg.nssf_tier2_limit ≤ gross →
        calculate_nssf cfg gross = calculate_nssf cfg cfg.nssf_tier2_limit) := by
  refine ⟨?_, ?_, ?_⟩
  · simp only [calculate_nssf, gt_iff_lt]
    rcases lt_or_le cfg.nssf_tier1_limit gross with h | h
    · rw [if_pos h, if_pos h, mul_comm cfg.nssf_tier1_rate, mul_comm cfg.nssf_tier2_rate]
    · rw [if_neg (not_lt.mpr h), if_neg (not_lt.mpr h), mul_comm cfg.nssf_tier1_rate]
  · intro h
    simp only [calculate_nssf, gt_iff_lt, min_eq_left h, if_neg (not_lt.mpr h),
      add_zero, mul_comm]
  · intro h2
    have h1g : cfg.nssf_tier1_limit ≤ gross := le_trans h12 h2
    simp only [calculate_nssf, gt_iff_lt]
    rw [min_eq_right h1g, min_eq_right h2, min_eq_right h12, min_self]
    rcases lt_or_eq_of_le h12 with hlt | heq
    · rw [if_pos (lt_of_lt_of_le hlt h2), if_pos hlt]
    · rw [← heq, sub_self, zero_mul, roundHalfUp2_zero]
      split_ifs <;> rfl

/-- Witness for `nssf_two_tier` at the default configuration: gross 100,000
is at least the tier-2 limit 36,000, and the contribution there equals the
capped value at the tier-2 limit. -/
theorem nssf_two_tier_witness :
    DEFAULT_CONFIG.nssf_tier2_limit ≤ (100000 : ℚ)
    ∧ calculate_nssf DEFAULT_CONFIG 100000
        = calculate_nssf DEFAULT_CONFIG DEFAULT_CONFIG.nssf_tier2_limit :=
  ⟨by norm_num [DEFAULT_CONFIG],
   (nssf_two_tier DEFAULT_CONFIG (by norm_num [DEFAULT_CONFIG]) 100000).2.2
     (by norm_num [DEFAULT_CONFIG])⟩

/-- Modelled from the spec wording of claim C6, for the refinement
comparison with `calculate_tax`: the ordered band widths, where each band
width is that band's upper limit minus the previous band's upper limit and
the final band is unbounded. -/
def specTaxBandWidths (cfg : Config) : List (Option ℚ × ℚ) :=
  [(some cfg.band_1_limit, cfg.band_1_rate),
   (some (cfg.band_2_limit - cfg.band_1_limit), cfg.band_2_rate),
   (some (cfg.band_3_limit - cfg.band_2_limit), cfg.band_3_rate),
   (some (cfg.band_4_limit - cfg.band_3_limit), cfg.band_4_rate),
   (none, cfg.band_5_rate)]

/-- Modelled from the spec wording of claim C6, for the refinement
comparison with `calculate_tax`: walk the ordered bands from the lowest,
consuming `min(remaining income, band width)` at each band's rate, rounding
each band's tax to two decimals half-up before accumulating, and stopping
when remaining income is exhausted. -/
def specTaxWalk : List (Option ℚ × ℚ) → ℚ → ℚ
  | [], _ => 0
  | (width, rate) :: rest, remaining =>
    if remaining ≤ 0 then 0
    else
      let consumed :=
        match width with
        | none => remaining
        | some w => min remaining w
      roundHalfUp2 (consumed * rate) + specTaxWalk rest (remaining - consumed)

/-- **C6.** For every non-negative taxable income, tax charged is computed
by walking the ordered bands from the lowest, consuming
`min(remaining income, band width)` at each band's rate (band width = this
band's upper limit minus the previous band's upper limit, final band
unbounded), rounding each band's tax to two decimals half-up before
accumulating and stopping when remaining income is exhausted; under the
default configuration a taxable income of 30,000 yields tax charged of
exactly 3,900.00. -/
theorem tax_band_walk (cfg : Config) (t : ℚ) (ht : 0 ≤ t) :
    calculate_tax cfg t = specTaxWalk (specTaxBandWidths cfg) t
    ∧ calculate_tax DEFAULT_CONFIG 30000 = 3900 := by
  constructor
  · rcases eq_or_lt_of_le ht with h0 | hpos
    · rw [calculate_tax, if_pos (le_of_eq h0.symm), specTaxBandWidths, specTaxWalk,
        if_pos (le_of_eq h0.symm)]
    · rw [calculate_tax, if_neg (not_le.mpr hpos)]
      simp only [taxBands, specTaxBandWidths, taxLoop, specTaxWalk, sub_zero,
        zero_add, add_zero]
      split_ifs <;> ring
  · norm_num [calculate_tax, taxBands, taxLoop, roundHalfUp2, DEFAULT_CONFIG]

/-- Witness for `tax_band_walk` at taxable income 30,000 under the default
configuration. -/
theorem tax_band_walk_witness :
    (0 : ℚ) ≤ 30000
    ∧ calculate_tax DEFAULT_CONFIG 30000
        = specTaxWalk (specTaxBandWidths DEFAULT_CONFIG) 30000 :=
  ⟨by norm_num, (tax_band_walk DEFAULT_CONFIG 30000 (by norm_num)).1⟩

/-- **C7.** For every input, PAYE equals
`round(max(tax_charged - total_relief, 0))` where total relief is personal
relief plus capped insurance relief plus the disability exemption when the
flag is set; PAYE is never negative and is exactly zero whenever total
relief is at least tax charged; under the default configuration, basic
salary 50,000 with the disability flag yields PAYE exactly 0.00 and a net
pay strictly greater than without the flag. -/
theorem paye_relief (cfg : Config) (basic : ℚ) (allw : List AllowanceItem)
    (ded : List DeductionItem) (pen mort prem : ℚ) (dis : Bool) :
    (calculate cfg basic allw ded pen mort prem dis).paye
        = roundHalfUp2 (max (calculate_tax cfg (taxableIncome cfg basic allw pen mort)
            - totalRelief cfg prem dis) 0)
    ∧ 0 ≤ (calculate cfg basic allw ded pen mort prem dis).paye
    ∧ (calculate_tax cfg (taxableIncome cfg basic allw pen mort)
          ≤ totalRelief cfg prem dis →
        (calculate cfg basic allw ded pen mort prem dis).paye = 0)
    ∧ (calculate DEFAULT_CONFIG 50000 [] [] 0 0 0 true).paye = 0
    ∧ (calculate DEFAULT_CONFIG 50000 [] [] 0 0 0 false).net_pay
        < (calculate DEFAULT_CONFIG 50000 [] [] 0 0 0 true).net_pay := by
  have hpaye : (calculate cfg basic allw ded pen mort prem dis).paye
      = roundHalfUp2 (max (calculate_tax cfg (taxableIncome cfg basic allw pen mort)
          - totalRelief cfg prem dis) 0) := rfl
  refine ⟨hpaye, ?_, ?_, ?_, ?_⟩
  · rw [hpaye]
    exact roundHalfUp2_nonneg (le_max_right _ _)
  · intro h
    rw [hpaye, max_eq_right (sub_nonpos.mpr h), roundHalfUp2_zero]
  · norm_num [calculate, calculate_nssf, calculate_tax, taxBands, taxLoop, calculate_sha,
      calculate_housing_levy, calculate_insurance_relief, sumTaxableAllowances,
      sumNonTaxableAllowances, loanDeductions, saccoDeductions, otherDeductions,
      roundHalfUp2, DEFAULT_CONFIG]
  · norm_num [calculate, calculate_nssf, calculate_tax, taxBands, taxLoop, calculate_sha,
      calculate_housing_levy, calculate_insurance_relief, sumTaxableAllowances,
      sumNonTaxableAllowances, loanDeductions, saccoDeductions, otherDeductions,
      roundHalfUp2, DEFAULT_CONFIG]

/-- Witness for `paye_relief`: with basic 50,000 and the disability flag
under the default configuration, total relief dominates tax charged, and
the implication of `paye_relief` yields PAYE exactly 0. -/
theorem paye_relief_witness :
    (calculate DEFAULT_CONFIG 50000 [] [] 0 0 0 true).paye = 0 :=
  (paye_relief DEFAULT_CONFIG 50000 [] [] 0 0 0 true).2.2.1
    (by norm_num [calculate_tax, taxBands, taxLoop, taxableIncome, grossPay,
      sumTaxableAllowances, sumNonTaxableAllowances, calculate_nssf, totalRelief,
      calculate_insurance_relief, roundHalfUp2, DEFAULT_CONFIG])

/-- **C9.** The processor never retrieves a mortgage-interest amount and
always invokes the calculator with the default `mortgage_interest = 0`, so
every entry produced by `process_employee` stores an owner-occupied-interest
deduction of exactly 0, and taxable income is never reduced by mortgage
interest (under the configuration sanity hypothesis
`0 ≤ mortgage_interest_max`, which the default configuration satisfies). -/
theorem mortgage_interest_always_zero (cfg : Config)
    (hcap : 0 ≤ cfg.mortgage_interest_max) (db : EmployeeDb) (d : ℤ)
    (emp : Employee) :
    (employeeResult cfg db d emp).owner_occupied_interest = 0
    ∧ (employeeResult cfg db d emp).taxable_income
        = roundHalfUp2 (max
            (grossPay emp.basic_salary (allowanceItemsOn (db.allowance_rows emp.id) d)
              - calculate_nssf cfg
                  (grossPay emp.basic_salary (allowanceItemsOn (db.allowance_rows emp.id) d))
              - min (get_pension_contribution (db.deduction_rows emp.id) d)
                  cfg.pension_max_deduction) 0) := by
  have hmin : min (0 : ℚ) cfg.mortgage_interest_max = 0 := min_eq_left hcap
  constructor
  · show roundHalfUp2 (min 0 cfg.mortgage_interest_max) = 0
    rw [hmin, roundHalfUp2_zero]
  · show roundHalfUp2 (max
        (grossPay emp.basic_salary (allowanceItemsOn (db.allowance_rows emp.id) d)
          - calculate_nssf cfg
              (grossPay emp.basic_salary (allowanceItemsOn (db.allowance_rows emp.id) d))
          - min (get_pension_contribution (db.deduction_rows emp.id) d)
              cfg.pension_max_deduction
          - min 0 cfg.mortgage_interest_max) 0) = _
    rw [hmin, sub_zero]

/-- Witness for `mortgage_interest_always_zero` at the default
configuration, an empty compensation database and a concrete employee. -/
theorem mortgage_interest_always_zero_witness :
    (employeeResult DEFAULT_CONFIG ⟨fun _ => [], fun _ => []⟩ 0
      ⟨1, "Alice", 50000, false⟩).owner_occupied_interest = 0 :=
  (mortgage_interest_always_zero DEFAULT_CONFIG (by norm_num [DEFAULT_CONFIG])
    ⟨fun _ => [], fun _ => []⟩ 0 ⟨1, "Alice", 50000, false⟩).1

/-- **C10.** `get_employee_deductions` returns every deduction row valid for
the period date, including rows typed `pension` and `insurance`, and the
calculator buckets any type other than `loan` or `sacco` into
`other_deductions`; so a pretax pension row is counted twice — subtracted
from taxable income as the capped pretax pension contribution and also added
to `other_deductions`, hence subtracted from net pay — and an insurance row
is likewise both used for insurance relief and added to `other_deductions`
(shown for an employee whose deduction table holds that one row). -/
theorem pension_insurance_double_count (cfg : Config) (r : DeductionRow)
    (d : ℤ) (emp : Employee) (rows : List DeductionRow)
    (hval : r.validOn d = true) :
    (r ∈ rows →
      ({ name := r.name, amount := r.amount, dtype := r.deduction_type } : DeductionItem)
        ∈ get_employee_deductions rows d)
    ∧ (r.deduction_type = "pension" → r.is_pretax = true →
        get_pension_contribution [r] d = r.amount
        ∧ (employeeResult cfg ⟨fun _ => [], fun _ => [r]⟩ d emp).other_deductions
            = roundHalfUp2 r.amount
        ∧ (employeeResult cfg ⟨fun _ => [], fun _ => [r]⟩ d emp).taxable_income
            = roundHalfUp2 (max
                (grossPay emp.basic_salary []
                  - calculate_nssf cfg (grossPay emp.basic_salary [])
                  - min r.amount cfg.pension_max_deduction
                  - min 0 cfg.mortgage_interest_max) 0)
        ∧ (employeeResult cfg ⟨fun _ => [], fun _ => [r]⟩ d emp).net_pay
            = roundHalfUp2 (grossPay emp.basic_salary []
                - ((employeeResult cfg ⟨fun _ => [], fun _ => [r]⟩ d emp).paye
                  + calculate_nssf cfg (grossPay emp.basic_salary [])
                  + calculate_sha cfg (grossPay emp.basic_salary [])
                  + calculate_housing_levy cfg (grossPay emp.basic_salary [])
                  + r.amount)))
    ∧ (r.deduction_type = "insurance" →
        get_insurance_premium [r] d = r.amount
        ∧ (employeeResult cfg ⟨fun _ => [], fun _ => [r]⟩ d emp).insurance_relief
            = roundHalfUp2 (calculate_insurance_relief cfg r.amount)
        ∧ (employeeResult cfg ⟨fun _ => [], fun _ => [r]⟩ d emp).other_deductions
            = roundHalfUp2 r.amount) := by
  refine ⟨?_, ?_, ?_⟩
  · intro hr
    simp only [get_employee_deductions, List.mem_map, List.mem_filter]
    exact ⟨r, ⟨hr, hval⟩, rfl⟩
  · intro hp hpre
    have hded : get_employee_deductions [r] d
        = [{ name := r.name, amount := r.amount, dtype := r.deduction_type }] := by
      simp [get_employee_deductions, hval]
    have hpen : get_pension_contribution [r] d = r.amount := by
      simp [get_pension_contribution, hp, hpre, hval]
    have hother : otherDeductions (get_employee_deductions [r] d) = r.amount := by
      rw [hded]; simp [otherDeductions, hp]
    have hloan : loanDeductions (get_employee_deductions [r] d) = 0 := by
      rw [hded]; simp [loanDeductions, hp]
    have hsacco : saccoDeductions (get_employee_deductions [r] d) = 0 := by
      rw [hded]; simp [saccoDeductions, hp]
    refine ⟨hpen, ?_, ?_, ?_⟩
    · show roundHalfUp2 (otherDeductions (get_employee_deductions [r] d)) = _
      rw [hother]
    · show roundHalfUp2 (max
          (grossPay emp.basic_salary []
            - calculate_nssf cfg (grossPay emp.basic_salary [])
            - min (get_pension_contribution [r] d) cfg.pension_max_deduction
            - min 0 cfg.mortgage_interest_max) 0) = _
      rw [hpen]
    · show roundHalfUp2 (grossPay emp.basic_salary []
          - ((employeeResult cfg ⟨fun _ => [], fun _ => [r]⟩ d emp).paye
            + calculate_nssf cfg (grossPay emp.basic_salary [])
            + calculate_sha cfg (grossPay emp.basic_salary [])
            + calculate_housing_levy cfg (grossPay emp.basic_salary [])
            + loanDeductions (get_employee_deductions [r] d)
            + saccoDeductions (get_employee_deductions [r] d)
            + otherDeductions (get_employee_deductions [r] d))) = _
      rw [hloan, hsacco, hother, add_zero, add_zero]
  · intro hi
    have hprem : get_insurance_premium [r] d = r.amount := by
      simp [get_insurance_premium, hi, hval]
    have hded : get_employee_deductions [r] d
        = [{ name := r.name, amount := r.amount, dtype := r.deduction_type }] := by
      simp [get_employee_deductions, hval]
    have hother : otherDeductions (get_employee_deductions [r] d) = r.amount := by
      rw [hded]; simp [otherDeductions, hi]
    refine ⟨hprem, ?_, ?_⟩
    · show roundHalfUp2 (calculate_insurance_relief cfg (get_insurance_premium [r] d)) = _
      rw [hprem]
    · show roundHalfUp2 (otherDeductions (get_employee_deductions [r] d)) = _
      rw [hother]

/-- Witness for `pension_insurance_double_count`: a concrete pretax pension
row of 1,080 valid on the period date is both the pension contribution and
the whole `other_deductions` bucket. -/
theorem pension_insurance_double_count_witness :
    get_pension_contribution [⟨"Staff pension", 1080, "pension", true, 0, none⟩] 5 = 1080
    ∧ (employeeResult DEFAULT_CONFIG
        ⟨fun _ => [], fun _ => [⟨"Staff pension", 1080, "pension", true, 0, none⟩]⟩ 5
        ⟨2, "Bob", 53000, false⟩).other_deductions = roundHalfUp2 1080 := by
  have h := (pension_insurance_double_count DEFAULT_CONFIG
    ⟨"Staff pension", 1080, "pension", true, 0, none⟩ 5 ⟨2, "Bob", 53000, false⟩ []
    (by decide)).2.1 rfl rfl
  exact ⟨h.1, h.2.1⟩

/-- An empty compensation database, for concrete instances. -/
def emptyDb : EmployeeDb where
  allowance_rows := fun _ => []
  deduction_rows := fun _ => []

/-- A concrete empty draft period, for concrete instances. -/
def samplePeriod : PayrollPeriod where
  year := 2025
  month := 1
  status := Status.draft
  prepared_by := none
  prepared_at := none
  hr_approved_by := none
  hr_approved_at := none
  hr_comments := ""
  mgmt_approved_by := none
  mgmt_approved_at := none
  mgmt_comments := ""
  entries := []
  total_gross := 0
  total_net := 0
  total_paye := 0
  total_nssf := 0
  total_sha := 0
  total_housing_levy := 0

/-- **C1, counterexample.** With no tax table at all, no configuration is
effective for any date, yet `_get_calculator` silently falls back to
`DEFAULT_CONFIG` and `process_all` completes (here with an empty workforce),
stamping the period `PENDING_HR`; no `ConfigurationMissing` failure exists. -/
theorem config_missing_counterexample :
    TaxTable.get_active [] 2025 = none
    ∧ getCalculatorConfig [] 2025 = DEFAULT_CONFIG
    ∧ process_all (getCalculatorConfig [] 2025) [] emptyDb 2025 "preparer" 1 samplePeriod
        = Except.ok (finishProcessing "preparer" 1 samplePeriod)
    ∧ (finishProcessing "preparer" 1 samplePeriod).status = Status.pending_hr :=
  ⟨rfl, rfl, rfl, rfl⟩

/-- **C1, amended.** Whenever no rate configuration resolves (for the
current date — the lookup uses today's date, not the period date),
`_get_calculator` falls back to the built-in `DEFAULT_CONFIG` and processing
proceeds under that substitute configuration rather than failing with
`ConfigurationMissing`: an empty-workforce run completes and stamps the
period `PENDING_HR`. -/
theorem config_missing_fallback (tables : List TaxTable) (today : ℤ)
    (h : TaxTable.get_active tables today = none) (db : EmployeeDb)
    (period_date : ℤ) (prep : String) (now : ℕ) (p : PayrollPeriod) :
    getCalculatorConfig tables today = DEFAULT_CONFIG
    ∧ process_all (getCalculatorConfig tables today) [] db period_date prep now p
        = Except.ok (finishProcessing prep now p)
    ∧ (finishProcessing prep now p).status = Status.pending_hr := by
  refine ⟨?_, rfl, rfl⟩
  rw [getCalculatorConfig, h]

/-- Witness for `config_missing_fallback` at the empty tax-table list. -/
theorem config_missing_fallback_witness :
    getCalculatorConfig [] 2024 = DEFAULT_CONFIG :=
  (config_missing_fallback [] 2024 rfl emptyDb 0 "preparer" 0 samplePeriod).1

/-- **C2, counterexample.** `reject` on a `DRAFT` period — which is in
neither pending-approval state — does not signal anything: it succeeds and
mutates the period (appending a rejection note), contradicting the claim
that every workflow operation checks its status precondition and, failing,
signals `InvalidStateTransition` leaving the period unchanged. -/
theorem workflow_precondition_counterexample :
    samplePeriod.status = Status.draft
    ∧ reject samplePeriod "Eve" "redo"
        = Except.ok { samplePeriod with hr_comments := "Rejected by Eve: redo" }
    ∧ ({ samplePeriod with hr_comments := "Rejected by Eve: redo" } : PayrollPeriod)
        ≠ samplePeriod := by
  refine ⟨rfl, rfl, ?_⟩
  intro h
  have := congrArg PayrollPeriod.hr_comments h
  simp [samplePeriod] at this

/-- **C2, amended.** Only the two approval operations check their status
preconditions: `approve_hr` fails (with `ValueError`, mutating nothing)
whenever the status is not `PENDING_HR`, and `approve_management` whenever
it is not `PENDING_MANAGEMENT`.  `process_all` checks no status
precondition and advances a period of any status to `PENDING_HR` (shown on
the empty workforce, its only non-raising case), and `reject` checks no
status precondition: from any status it succeeds, returns the period to
`DRAFT`, clears both approval stamps and appends a rejection note. -/
theorem workflow_preconditions_actual (p : PayrollPeriod) (actor : String)
    (comments : String) (now : ℕ) (cfg : Config) (db : EmployeeDb) (d : ℤ) :
    (p.status ≠ Status.pending_hr →
      approve_hr p actor comments now
        = Except.error (PyError.valueError "Payroll is not pending HR approval"))
    ∧ (p.status ≠ Status.pending_mgmt →
      approve_management p actor comments now
        = Except.error (PyError.valueError "Payroll is not pending management approval"))
    ∧ reject p actor comments
        = Except.ok { p with
            status := Status.draft
            hr_approved_by := none
            hr_approved_at := none
            mgmt_approved_by := none
            mgmt_approved_at := none
            hr_comments :=
              if p.hr_comments ≠ "" then
                p.hr_comments ++ "\n\n" ++ ("Rejected by " ++ actor ++ ": " ++ comments)
              else "Rejected by " ++ actor ++ ": " ++ comments }
    ∧ process_all cfg [] db d actor now p = Except.ok (finishProcessing actor now p)
    ∧ (finishProcessing actor now p).status = Status.pending_hr := by
  refine ⟨?_, ?_, rfl, rfl, rfl⟩
  · intro h
    rw [approve_hr, if_pos h]
  · intro h
    rw [approve_management, if_pos h]

/-- Witness for `workflow_preconditions_actual`: on the concrete draft
period, `approve_hr` fails with the source `ValueError`. -/
theorem workflow_preconditions_actual_witness :
    approve_hr samplePeriod "Ann" "lgtm" 3
      = Except.error (PyError.valueError "Payroll is not pending HR approval") :=
  (workflow_preconditions_actual samplePeriod "Ann" "lgtm" 3 DEFAULT_CONFIG emptyDb 0).1
    (by decide)

/-- **C8.** The allowance lookup references the name `models`, which is
neither imported at module level nor inside the function, so
`get_employee_allowances` raises `NameError` for every employee; hence
`process_employee` raises for every employee, `process_all` raises (and the
transaction commits nothing) whenever the workforce is non-empty, and it can
only complete — stamping `PENDING_HR`, with zero totals when the period has
no entries — when the active workforce is empty. -/
theorem allowances_name_error (emp : Employee) (d : ℤ) (cfg : Config)
    (db : EmployeeDb) (p : PayrollPeriod) (workforce : List Employee)
    (prep : String) (now : ℕ) :
    get_employee_allowances emp d = Except.error (PyError.nameError "models")
    ∧ process_employee cfg db d p emp = Except.error (PyError.nameError "models")
    ∧ (workforce ≠ [] →
        process_all cfg workforce db d prep now p
          = Except.error (PyError.nameError "models"))
    ∧ process_all cfg [] db d prep now p = Except.ok (finishProcessing prep now p)
    ∧ (finishProcessing prep now p).status = Status.pending_hr
    ∧ (p.entries = [] →
        (finishProcessing prep now p).total_gross = 0
        ∧ (finishProcessing prep now p).total_net = 0) := by
  refine ⟨rfl, rfl, ?_, rfl, rfl, ?_⟩
  · intro hw
    cases workforce with
    | nil => exact absurd rfl hw
    | cons e w => rfl
  · intro h
    constructor
    · show (List.map _ p.entries).sum = (0 : ℚ)
      rw [h]
      rfl
    · show (List.map _ p.entries).sum = (0 : ℚ)
      rw [h]
      rfl

/-- Witness for `allowances_name_error`: a one-employee workforce makes
`process_all` raise the `NameError`, and the empty sample period completes
with zero totals. -/
theorem allowances_name_error_witness :
    process_all DEFAULT_CONFIG [⟨1, "Alice", 50000, false⟩] emptyDb 0 "prep" 1
        samplePeriod
      = Except.error (PyError.nameError "models")
    ∧ (finishProcessing "prep" 1 samplePeriod).total_gross = 0 := by
  have h := allowances_name_error ⟨1, "Alice", 50000, false⟩ 0 DEFAULT_CONFIG emptyDb
    samplePeriod [⟨1, "Alice", 50000, false⟩] "prep" 1
  exact ⟨h.2.2.1 (by simp), (h.2.2.2.2.2 rfl).1⟩

/-- **C3.** After any (successful) `process_all` — including any later
reprocessing, since the starting period is universally quantified — each
aggregate total stored on the period (gross, net, PAYE, NSSF, SHA, housing
levy) equals the field-wise sum of that field over the period's current
entries. -/
theorem totals_match_entries (cfg : Config) (workforce : List Employee)
    (db : EmployeeDb) (d : ℤ) (prep : String) (now : ℕ) (p : PayrollPeriod) :
    (process_all_core cfg workforce db d prep now p).total_gross
      = ((process_all_core cfg workforce db d prep now p).entries.map
          (fun e => e.2.gross_pay)).sum
    ∧ (process_all_core cfg workforce db d prep now p).total_net
      = ((process_all_core cfg workforce db d prep now p).entries.map
          (fun e => e.2.net_pay)).sum
    ∧ (process_all_core cfg workforce db d prep now p).total_paye
      = ((process_all_core cfg workforce db d prep now p).entries.map
          (fun e => e.2.paye)).sum
    ∧ (process_all_core cfg workforce db d prep now p).total_nssf
      = ((process_all_core cfg workforce db d prep now p).entries.map
          (fun e => e.2.nssf)).sum
    ∧ (process_all_core cfg workforce db d prep now p).total_sha
      = ((process_all_core cfg workforce db d prep now p).entries.map
          (fun e => e.2.sha)).sum
    ∧ (process_all_core cfg workforce db d prep now p).total_housing_levy
      = ((process_all_core cfg workforce db d prep now p).entries.map
          (fun e => e.2.housing_levy)).sum :=
  ⟨rfl, rfl, rfl, rfl, rfl, rfl⟩

/-! ## Association-map lemmas for the entry upsert, used for idempotency -/

theorem update_or_create_noop {es : List (ℕ × PayrollEntry)} {k : ℕ}
    {v : PayrollEntry} (hk : es.any (fun q => q.1 = k) = true)
    (hv : ∀ q ∈ es, q.1 = k → q.2 = v) :
    update_or_create es k v = es := by
  rw [update_or_create, if_pos hk]
  have hid : ∀ q ∈ es, (if q.1 = k then ((k, v) : ℕ × PayrollEntry) else q) = id q := by
    intro q hq
    by_cases hqk : q.1 = k
    · rw [if_pos hqk, id_eq]
      obtain ⟨q1, q2⟩ := q
      have h2 : q2 = v := hv (q1, q2) hq hqk
      simp only at hqk
      rw [hqk, h2]
    · rw [if_neg hqk, id_eq]
  rw [List.map_congr_left hid, List.map_id]

theorem update_or_create_mem {es : List (ℕ × PayrollEntry)} {k : ℕ}
    {v : PayrollEntry} :
    ∀ q ∈ update_or_create es k v, q.1 = k → q.2 = v := by
  intro q hq hqk
  rw [update_or_create] at hq
  by_cases hk : es.any (fun q => q.1 = k) = true
  · rw [if_pos hk] at hq
    obtain ⟨q', hq', hmap⟩ := List.mem_map.mp hq
    by_cases hq'k : q'.1 = k
    · rw [if_pos hq'k] at hmap
      rw [← hmap]
    · rw [if_neg hq'k] at hmap
      exact absurd (hmap ▸ hqk) hq'k
  · rw [if_neg hk] at hq
    rcases List.mem_append.mp hq with hin | hsing
    · exact absurd (List.any_eq_true.mpr ⟨q, hin, decide_eq_true hqk⟩) hk
    · rw [List.mem_singleton.mp hsing]

theorem update_or_create_any_self {es : List (ℕ × PayrollEntry)} {k : ℕ}
    {v : PayrollEntry} :
    (update_or_create es k v).any (fun q => q.1 = k) = true := by
  rw [update_or_create]
  by_cases hk : es.any (fun q => q.1 = k) = true
  · rw [if_pos hk]
    obtain ⟨q, hq, hqk⟩ := List.any_eq_true.mp hk
    refine List.any_eq_true.mpr ⟨(k, v), List.mem_map.mpr ⟨q, hq, ?_⟩, by simp⟩
    rw [if_pos (of_decide_eq_true hqk)]
  · rw [if_neg hk]
    exact List.any_eq_true.mpr ⟨(k, v), List.mem_append.mpr (Or.inr (by simp)), by simp⟩

theorem update_or_create_any_other {es : List (ℕ × PayrollEntry)} {k k' : ℕ}
    {v : PayrollEntry} (hne : k' ≠ k) :
    (update_or_create es k v).any (fun q => q.1 = k')
      = es.any (fun q => q.1 = k') := by
  rw [update_or_create]
  by_cases hk : es.any (fun q => q.1 = k) = true
  · rw [if_pos hk]
    apply Bool.eq_iff_iff.mpr
    simp only [List.any_eq_true, List.mem_map]
    constructor
    · rintro ⟨fq, ⟨q, hq, rfl⟩, hp⟩
      by_cases hqk : q.1 = k
      · rw [if_pos hqk] at hp
        exact absurd (of_decide_eq_true hp) (Ne.symm hne)
      · rw [if_neg hqk] at hp
        exact ⟨q, hq, hp⟩
    · rintro ⟨q, hq, hp⟩
      have hqk : ¬ q.1 = k := fun h => hne ((of_decide_eq_true hp).symm.trans h)
      exact ⟨q, ⟨q, hq, if_neg hqk⟩, hp⟩
  · rw [if_neg hk, List.any_append]
    simp [hne, Ne.symm hne]

theorem update_or_create_mem_other {es : List (ℕ × PayrollEntry)} {k k' : ℕ}
    {v w : PayrollEntry} (hne : k' ≠ k)
    (hw : ∀ q ∈ es, q.1 = k' → q.2 = w) :
    ∀ q ∈ update_or_create es k v, q.1 = k' → q.2 = w := by
  intro q hq hqk'
  rw [update_or_create] at hq
  by_cases hk : es.any (fun q => q.1 = k) = true
  · rw [if_pos hk] at hq
    obtain ⟨q', hq', hmap⟩ := List.mem_map.mp hq
    by_cases hq'k : q'.1 = k
    · rw [if_pos hq'k] at hmap
      rw [← hmap] at hqk'
      exact absurd hqk' (Ne.symm hne)
    · rw [if_neg hq'k] at hmap
      rw [← hmap] at hqk' ⊢
      exact hw q' hq' hqk'
  · rw [if_neg hk] at hq
    rcases List.mem_append.mp hq with hin | hsing
    · exact hw q hin hqk'
    · rw [List.mem_singleton.mp hsing] at hqk'
      exact absurd hqk' (Ne.symm hne)

/-- The entry written for one employee on the success path. -/
def entryFor (cfg : Config) (db : EmployeeDb) (d : ℤ) (emp : Employee) :
    PayrollEntry :=
  PayrollEntry.ofResult (employeeResult cfg db d emp)

/-- The entry-set evolution of the per-employee loop of `process_all`
(processor.py lines 238-243): upsert one entry per employee in workforce
order. -/
def processEntries (cfg : Config) (db : EmployeeDb) (d : ℤ)
    (workforce : List Employee) (es : List (ℕ × PayrollEntry)) :
    List (ℕ × PayrollEntry) :=
  workforce.foldl (fun es emp => update_or_create es emp.id (entryFor cfg db d emp)) es

theorem foldl_core_eq (cfg : Config) (db : EmployeeDb) (d : ℤ)
    (workforce : List Employee) (p : PayrollPeriod) :
    workforce.foldl (fun q emp => process_employee_core cfg db d q emp) p
      = { p with entries := processEntries cfg db d workforce p.entries } := by
  induction workforce generalizing p with
  | nil => rfl
  | cons e w ih =>
    rw [List.foldl_cons, ih (process_employee_core cfg db d p e)]
    rfl

theorem processEntries_preserves (cfg : Config) (db : EmployeeDb) (d : ℤ)
    (k : ℕ) (v : PayrollEntry) (w : List Employee)
    (hk : k ∉ w.map Employee.id) :
    ∀ es, es.any (fun q => q.1 = k) = true → (∀ q ∈ es, q.1 = k → q.2 = v) →
      (processEntries cfg db d w es).any (fun q => q.1 = k) = true
      ∧ ∀ q ∈ processEntries cfg db d w es, q.1 = k → q.2 = v := by
  induction w with
  | nil => exact fun es h1 h2 => ⟨h1, h2⟩
  | cons e t ih =>
    intro es h1 h2
    rw [List.map_cons] at hk
    have hke : k ≠ e.id := fun h => hk (List.mem_cons.mpr (Or.inl h))
    have hkt : k ∉ t.map Employee.id := fun h => hk (List.mem_cons.mpr (Or.inr h))
    have step1 : (update_or_create es e.id (entryFor cfg db d e)).any (fun q => q.1 = k) = true := by
      rw [update_or_create_any_other hke]
      exact h1
    have step2 : ∀ q ∈ update_or_create es e.id (entryFor cfg db d e), q.1 = k → q.2 = v :=
      update_or_create_mem_other hke h2
    exact ih hkt (update_or_create es e.id (entryFor cfg db d e)) step1 step2

theorem processEntries_establishes (cfg : Config) (db : EmployeeDb) (d : ℤ)
    (w : List Employee) (hnd : (w.map Employee.id).Nodup) :
    ∀ es, ∀ emp ∈ w,
      (processEntries cfg db d w es).any (fun q => q.1 = emp.id) = true
      ∧ ∀ q ∈ processEntries cfg db d w es, q.1 = emp.id → q.2 = entryFor cfg db d emp := by
  induction w with
  | nil => intro es emp h; exact absurd h (List.not_mem_nil emp)
  | cons e t ih =>
    rw [List.map_cons, List.nodup_cons] at hnd
    intro es emp hmem
    rcases List.mem_cons.mp hmem with rfl | hmemt
    · have h1 : (update_or_create es emp.id (entryFor cfg db d emp)).any
          (fun q => q.1 = emp.id) = true := update_or_create_any_self
      have h2 : ∀ q ∈ update_or_create es emp.id (entryFor cfg db d emp),
          q.1 = emp.id → q.2 = entryFor cfg db d emp := update_or_create_mem
      exact processEntries_preserves cfg db d emp.id (entryFor cfg db d emp) t hnd.1
        (update_or_create es emp.id (entryFor cfg db d emp)) h1 h2
    · exact ih hnd.2 (update_or_create es e.id (entryFor cfg db d e)) emp hmemt

theorem processEntries_noop (cfg : Config) (db : EmployeeDb) (d : ℤ)
    (w : List Employee) :
    ∀ es,
      (∀ emp ∈ w, es.any (fun q => q.1 = emp.id) = true
        ∧ ∀ q ∈ es, q.1 = emp.id → q.2 = entryFor cfg db d emp) →
      processEntries cfg db d w es = es := by
  induction w with
  | nil => intro es _; rfl
  | cons e t ih =>
    intro es h
    have he := h e (List.mem_cons_self e t)
    have hstep : update_or_create es e.id (entryFor cfg db d e) = es :=
      update_or_create_noop he.1 he.2
    show processEntries cfg db d t (update_or_create es e.id (entryFor cfg db d e)) = es
    rw [hstep]
    exact ih es (fun emp hm => h emp (List.mem_cons_of_mem e hm))

theorem processEntries_idempotent (cfg : Config) (db : EmployeeDb) (d : ℤ)
    (w : List Employee) (hnd : (w.map Employee.id).Nodup)
    (es : List (ℕ × PayrollEntry)) :
    processEntries cfg db d w (processEntries cfg db d w es)
      = processEntries cfg db d w es :=
  processEntries_noop cfg db d w (processEntries cfg db d w es)
    (fun emp hm => processEntries_establishes cfg db d w hnd es emp hm)

theorem update_or_create_keys_nodup {es : List (ℕ × PayrollEntry)} {k : ℕ}
    {v : PayrollEntry} (h : (es.map Prod.fst).Nodup) :
    ((update_or_create es k v).map Prod.fst).Nodup := by
  rw [update_or_create]
  by_cases hk : es.any (fun q => q.1 = k) = true
  · rw [if_pos hk]
    have hmap : (es.map (fun q => if q.1 = k then (k, v) else q)).map Prod.fst
        = es.map Prod.fst := by
      rw [List.map_map]
      apply List.map_congr_left
      intro q _
      by_cases hqk : q.1 = k
      · rw [Function.comp_apply, if_pos hqk]
        exact hqk.symm
      · rw [Function.comp_apply, if_neg hqk]
    rw [hmap]
    exact h
  · rw [if_neg hk, List.map_append]
    have hknot : k ∉ es.map Prod.fst := by
      intro hmem
      obtain ⟨q, hq, hqk⟩ := List.mem_map.mp hmem
      exact hk (List.any_eq_true.mpr ⟨q, hq, decide_eq_true hqk⟩)
    simp only [List.map_cons, List.map_nil]
    rw [List.nodup_append]
    exact ⟨h, List.nodup_singleton k, by simpa using hknot⟩

theorem processEntries_keys_nodup (cfg : Config) (db : EmployeeDb) (d : ℤ)
    (w : List Employee) :
    ∀ es, (es.map Prod.fst).Nodup → ((processEntries cfg db d w es).map Prod.fst).Nodup := by
  induction w with
  | nil => exact fun es h => h
  | cons e t ih =>
    intro es h
    exact ih (update_or_create es e.id (entryFor cfg db d e))
      (update_or_create_keys_nodup h)

/-- **C4.** Running `process_all` a second time on the same period with the
same workforce and compensation inputs is idempotent: each employee's entry
is updated in place, keyed by employee (the model of the
`(period, employee)` uniqueness constraint), so the resulting period —
entries, entry count and all totals — is identical after the second run,
and reprocessing never introduces duplicate entry keys (under the
hypothesis that workforce ids are distinct, which the `User` primary key
guarantees). -/
theorem process_all_idempotent (cfg : Config) (workforce : List Employee)
    (db : EmployeeDb) (d : ℤ) (prep : String) (now : ℕ) (p : PayrollPeriod)
    (hnd : (workforce.map Employee.id).Nodup) :
    process_all_core cfg workforce db d prep now
        (process_all_core cfg workforce db d prep now p)
      = process_all_core cfg workforce db d prep now p
    ∧ ((p.entries.map Prod.fst).Nodup →
        ((process_all_core cfg workforce db d prep now p).entries.map Prod.fst).Nodup) := by
  constructor
  · show finishProcessing prep now
        (workforce.foldl (fun q emp => process_employee_core cfg db d q emp)
          (finishProcessing prep now
            (workforce.foldl (fun q emp => process_employee_core cfg db d q emp) p)))
      = finishProcessing prep now
          (workforce.foldl (fun q emp => process_employee_core cfg db d q emp) p)
    rw [foldl_core_eq cfg db d workforce p]
    rw [foldl_core_eq cfg db d workforce (finishProcessing prep now
      { p with entries := processEntries cfg db d workforce p.entries })]
    rw [show (finishProcessing prep now
        { p with entries := processEntries cfg db d workforce p.entries }).entries
      = processEntries cfg db d workforce p.entries from rfl]
    rw [processEntries_idempotent cfg db d workforce hnd]
    rfl
  · intro hkeys
    show (((finishProcessing prep now
        (workforce.foldl (fun q emp => process_employee_core cfg db d q emp) p)).entries.map
          Prod.fst).Nodup)
    rw [foldl_core_eq cfg db d workforce p]
    exact processEntries_keys_nodup cfg db d workforce p.entries hkeys

/-- Witness for `process_all_idempotent`: a concrete one-employee workforce
over the empty sample period. -/
theorem process_all_idempotent_witness :
    process_all_core DEFAULT_CONFIG [⟨1, "Alice", 50000, false⟩] emptyDb 0 "prep" 1
        (process_all_core DEFAULT_CONFIG [⟨1, "Alice", 50000, false⟩] emptyDb 0
          "prep" 1 samplePeriod)
      = process_all_core DEFAULT_CONFIG [⟨1, "Alice", 50000, false⟩] emptyDb 0
          "prep" 1 samplePeriod :=
  (process_all_idempotent DEFAULT_CONFIG [⟨1, "Alice", 50000, false⟩] emptyDb 0
    "prep" 1 samplePeriod (by simp)).1

end HRS
